import Mathlib

/-!
# Document Processing Pipeline — verification of the specification claims

Shallow embedding of the upload/status/worker pipeline of
`src/app/main.py`, `src/app/models.py` and `src/app/schemas.py`.

The metadata store is a list of `Document` rows; the object store is an
association list from keys to byte lists; the Celery queue is the list of
enqueued identifiers.  FastAPI request handling is modelled by explicit
response values: an `HTTPException` becomes an error response with its
status code and detail string, and an uncaught Python exception becomes an
`unhandled` response (FastAPI serves it as HTTP 500).
-/

namespace DocPipeline

/-! ## Data model — src/app/models.py -/

/-- `DocumentStatus` enum of models.py (lines 6-10). -/
inductive DocumentStatus
  | QUEUED
  | PROCESSING
  | PROCESSED
  | FAILED
  deriving DecidableEq, Repr

/-- One row of the `documents` table (models.py lines 12-19).
`upload_time` is an abstract server-assigned timestamp. -/
structure Document where
  id : Nat
  filename : String
  s3_path : String
  upload_time : Nat
  status : DocumentStatus
  deriving DecidableEq, Repr

/-- `db.query(Document).filter(Document.id == id).first()`, projected to the
status column. -/
def statusOf (db : List Document) (docId : Nat) : Option DocumentStatus :=
  (db.find? (fun d => d.id == docId)).map (fun d => d.status)

/-- The effect of `doc.status = st` followed by persisting, on the rows with
the given id. -/
def setStatus (db : List Document) (docId : Nat) (st : DocumentStatus) :
    List Document :=
  db.map (fun d => if d.id = docId then { d with status := st } else d)

/-! ## Object store -/

/-- Object store contents: key to byte list.  `upload_fileobj` overwrites an
existing key silently (the spec notes the overwrite semantics). -/
def putObject (store : List (String × List Nat)) (key : String)
    (content : List Nat) : List (String × List Nat) :=
  (key, content) :: store.filter (fun kv => kv.1 != key)

/-! ## Startup — `lifespan`, src/app/main.py lines 48-96 -/

/-- `retries = 5` (main.py line 52). -/
def retries : Nat := 5

/-- `delay = 2` seconds (main.py line 53). -/
def delay : Nat := 2

/-- What one iteration of the startup loop observes.
* `constructRaises`: `boto3.client(...)` itself raises, so `minio_client`
  is not assigned on this attempt; caught by `except Exception`, sleep, retry.
* `headOk`: `head_bucket` succeeds; break.
* `head404`: `head_bucket` raises `ClientError` with code 404; the bucket is
  created and the loop breaks.
* `headClientErr`: `head_bucket` raises another `ClientError`; sleep, retry.
* `headConnErr`: `head_bucket` raises a non-ClientError exception, e.g. a
  connection error to an unreachable store; sleep, retry. -/
inductive AttemptOutcome
  | constructRaises
  | headOk
  | head404
  | headClientErr
  | headConnErr
  deriving DecidableEq, Repr

/-- State threaded through the retry loop: whether `minio_client` has been
assigned (is not `None`), whether the bucket was actually verified or
created, and how many `time.sleep(delay)` calls ran. -/
structure StartupState where
  minioAssigned : Bool
  verified : Bool
  sleeps : Nat
  deriving DecidableEq, Repr

/-- `for i in range(retries): ...` (main.py lines 64-90).  Crucially,
`minio_client = boto3.client(...)` runs before `head_bucket`, so the client
variable is assigned even when verification then raises. -/
def runAttempts : List AttemptOutcome → StartupState → StartupState
  | [], s => s
  | o :: rest, s =>
    match o with
    | .constructRaises => runAttempts rest { s with sleeps := s.sleeps + 1 }
    | .headOk => { s with minioAssigned := true, verified := true }
    | .head404 => { s with minioAssigned := true, verified := true }
    | .headClientErr =>
        runAttempts rest { s with minioAssigned := true, sleeps := s.sleeps + 1 }
    | .headConnErr =>
        runAttempts rest { s with minioAssigned := true, sleeps := s.sleeps + 1 }

/-- Outcome of application startup: either the app reaches `yield` and serves
requests (`verified` records whether the bucket check ever succeeded, and
`sleeps` how many fixed delays were taken), or the `RuntimeError` aborts
startup. -/
inductive StartupResult
  | started (verified : Bool) (sleeps : Nat)
  | aborted (sleeps : Nat)
  deriving DecidableEq, Repr

/-- The `lifespan` startup logic (main.py lines 48-96): run up to `retries`
attempts, then `if minio_client is None: raise RuntimeError(...)`, else
proceed to `yield`. -/
def lifespan (outcomes : List AttemptOutcome) : StartupResult :=
  let s := runAttempts (outcomes.take retries) ⟨false, false, 0⟩
  if s.minioAssigned then .started s.verified s.sleeps else .aborted s.sleeps

/-! ## Upload handler — `upload_document`, src/app/main.py lines 102-153 -/

/-- `MAX_FILE_SIZE = 25 * 1024 * 1024` (main.py line 17). -/
def MAX_FILE_SIZE : Nat := 25 * 1024 * 1024

/-- Python renders `MAX_FILE_SIZE / 1024 / 1024` (true division, a float) as
`25.0` inside the f-string of the 413 detail. -/
def limitMB : String := toString (MAX_FILE_SIZE / 1024 / 1024) ++ ".0"

/-- Observable side effects of the upload handler, in program order. -/
inductive Event
  | storePut (key : String)
  | dbInsert (docId : Nat)
  | enqueue (docId : Nat)
  deriving DecidableEq, Repr

/-- HTTP result of the upload handler.  `unhandled` is an uncaught Python
exception, which FastAPI surfaces as an HTTP 500 internal server error. -/
inductive UploadResponse
  | ok (code : Nat) (doc : Document)
  | httpError (code : Nat) (detail : String)
  | unhandled (message : String)
  deriving DecidableEq, Repr

/-- Response plus the post-state of the external systems and the ordered
event trace of the side effects that actually happened. -/
structure UploadOutcome where
  response : UploadResponse
  store : List (String × List Nat)
  db : List Document
  events : List Event
  deriving DecidableEq, Repr

/-- Autoincrement primary key assigned by the metadata store on insert. -/
def nextId (db : List Document) : Nat :=
  (db.map (fun d => d.id)).foldr max 0 + 1

/-- `file_size = int(content_length)` (main.py line 118) for the
nonnegative decimal strings a Content-Length header carries; on any other
value `int` raises `ValueError`, modelled by `none`. -/
def pyInt? (s : String) : Option Nat :=
  if s.data ≠ [] ∧ s.data.all (fun c => c.isDigit) then
    some (s.data.foldl (fun n c => n * 10 + (c.toNat - 48)) 0)
  else none

set_option linter.unusedVariables false in
/-- The upload handler exactly as written in src/app/main.py lines 102-153.
Its first statement is `content_length = request.headers.get('content-length')`,
but `request` is bound nowhere in the module (it is not a parameter of
`upload_document` and is not imported), so every invocation raises
`NameError` before any validation or side effect.  FastAPI turns the
uncaught exception into an HTTP 500; the store, the database and the queue
are untouched. -/
def upload_document (content_length : Option String) (filename : String)
    (body : List Nat) (store_ok : Bool) (store_err : String)
    (enqueue_ok : Bool) (enqueue_err : String) (now : Nat)
    (store : List (String × List Nat)) (db : List Document) : UploadOutcome :=
  { response := .unhandled "NameError: name request is not defined",
    store := store, db := db, events := [] }

/-- Modelled from the spec: the source upload handler reads
`request.headers` through a `request` name that the module never binds, and
the spec design note directs that the documented Content-Length check is the
intended contract, with the header read wired to the actual incoming
request.  This definition is the body of `upload_document`
(src/app/main.py lines 102-153) with exactly that wiring applied:
`content_length` is the value of the Content-Length header of the incoming
request (`none` when the header is absent).  Everything else follows the
source line by line:
* `if not content_length:` — Python falsy, so `none` and the empty string
  both yield HTTP 411 (lines 115-116);
* `file_size = int(content_length)` — a non-numeric value raises
  `ValueError`, uncaught (line 118);
* `if file_size > MAX_FILE_SIZE:` — HTTP 413 with the limit in MB
  (lines 119-123);
* `upload_fileobj` inside `try` — on exception, HTTP 500 with the error
  message and no further side effect (lines 140-144), `store_ok` and
  `store_err` abstract whether and how the write raises;
* row insert with default status QUEUED, commit, refresh (lines 146-149);
* `process_document.delay(db_document.id)` — a raise here is uncaught and
  propagates after the commit (line 151), abstracted by `enqueue_ok` and
  `enqueue_err`;
* `return db_document` (line 153). -/
def upload_document_wired (content_length : Option String) (filename : String)
    (body : List Nat) (store_ok : Bool) (store_err : String)
    (enqueue_ok : Bool) (enqueue_err : String) (now : Nat)
    (store : List (String × List Nat)) (db : List Document) : UploadOutcome :=
  let missing : Bool :=
    match content_length with
    | none => true
    | some s => s == ""
  if missing then
    { response := .httpError 411 "Content-Length header required.",
      store := store, db := db, events := [] }
  else
    match pyInt? (content_length.getD "") with
    | none =>
        { response := .unhandled "ValueError: invalid literal for int",
          store := store, db := db, events := [] }
    | some file_size =>
      if file_size > MAX_FILE_SIZE then
        { response := .httpError 413
            ("File is too large. Limit is " ++ limitMB ++ " MB."),
          store := store, db := db, events := [] }
      else if store_ok then
        let store1 := putObject store filename body
        let doc : Document :=
          { id := nextId db, filename := filename, s3_path := filename,
            upload_time := now, status := .QUEUED }
        let db1 := db ++ [doc]
        if enqueue_ok then
          { response := .ok 200 doc, store := store1, db := db1,
            events := [.storePut filename, .dbInsert doc.id, .enqueue doc.id] }
        else
          { response := .unhandled enqueue_err, store := store1, db := db1,
            events := [.storePut filename, .dbInsert doc.id] }
      else
        { response := .httpError 500
            ("An unexpected error occurred during upload: " ++ store_err),
          store := store, db := db, events := [] }

/-! ## Status handler — `get_document_status`, src/app/main.py lines 155-163 -/

/-- Result of the status endpoint: 200 with the row, or the
`HTTPException(status_code=404, detail="Document not found")`. -/
inductive StatusResponse
  | ok (code : Nat) (doc : Document)
  | notFound (code : Nat) (detail : String)
  deriving DecidableEq, Repr

/-- The status handler; the second component is the database after the
request (the handler only queries). -/
def get_document_status (db : List Document) (document_id : Nat) :
    StatusResponse × List Document :=
  match db.find? (fun d => d.id == document_id) with
  | none => (.notFound 404 "Document not found", db)
  | some d => (.ok 200 d, db)

/-! ## Processing worker — `process_document`, src/app/main.py lines 170-223 -/

/-- Result of one worker invocation: the final committed database, the list
of successive committed database states (one entry per `db.commit()` that
ran, in order), and whether `db.close()` ran. -/
structure WorkerResult where
  db : List Document
  commits : List (List Document)
  sessionClosed : Bool
  deriving DecidableEq, Repr

/-- The Celery task (main.py lines 170-223).  `fetch_ok` abstracts whether
the `get_object` call and the body read inside the `try` raise
(`False` covers a missing key, an unreachable store, or any other exception
during fetch or processing).  The session is modelled by a committed state
and an in-session view:
* row lookup `first()`; if `None`, log and return — the `finally` block
  still commits (session active, nothing pending) and closes;
* `doc.status = PROCESSING; db.commit()` — first commit;
* on success `doc.status = PROCESSED` and the `finally` commit persists it;
* on exception `db.rollback()` resets the in-session view to the committed
  state (PROCESSING, already committed), then `doc.status = FAILED` and the
  `finally` commit persists it;
* `db.close()` runs on every path. -/
def process_document (fetch_ok : Bool) (db0 : List Document)
    (document_id : Nat) : WorkerResult :=
  match db0.find? (fun d => d.id == document_id) with
  | none =>
      { db := db0, commits := [db0], sessionClosed := true }
  | some _ =>
      let committed1 := setStatus db0 document_id .PROCESSING
      if fetch_ok then
        let committed2 := setStatus committed1 document_id .PROCESSED
        { db := committed2, commits := [committed1, committed2],
          sessionClosed := true }
      else
        let committed2 := setStatus committed1 document_id .FAILED
        { db := committed2, commits := [committed1, committed2],
          sessionClosed := true }

/-! ## Helper lemmas -/

/-- Setting the status of the same id twice keeps only the second value. -/
theorem setStatus_setStatus (db : List Document) (docId : Nat)
    (a b : DocumentStatus) :
    setStatus (setStatus db docId a) docId b = setStatus db docId b := by
  induction db with
  | nil => rfl
  | cons d rest ih =>
    simp only [setStatus, List.map_cons] at ih ⊢
    by_cases h : d.id = docId
    · simp [h, ih]
    · simp [h, ih]

/-- After `setStatus`, the looked-up status of an existing row is the value
just written. -/
theorem statusOf_setStatus (db : List Document) (docId : Nat)
    (st : DocumentStatus)
    (h : (db.find? (fun d => d.id == docId)).isSome) :
    statusOf (setStatus db docId st) docId = some st := by
  induction db with
  | nil => simp [List.find?] at h
  | cons d rest ih =>
    by_cases hd : d.id = docId
    · simp [statusOf, setStatus, List.find?_cons, hd]
    · have h2 : (rest.find? (fun d => d.id == docId)).isSome := by
        simpa [List.find?_cons, hd] using h
      have h3 := ih h2
      simpa [statusOf, setStatus, List.find?_cons, hd] using h3

/-! ## Claims about the processing worker -/

/-- Claim C1, counterexample: after a worker invocation with a successful
fetch, document 1 is PROCESSED (a terminal status); a further worker
invocation for the same identifier with a failing fetch changes it to
FAILED, so a terminal status is changed by a later operation, contrary to
the claim. -/
theorem C1_counterexample :
    statusOf (process_document true
        [⟨1, "a.txt", "a.txt", 0, .QUEUED⟩] 1).db 1 =
      some DocumentStatus.PROCESSED ∧
    statusOf (process_document false
        (process_document true [⟨1, "a.txt", "a.txt", 0, .QUEUED⟩] 1).db
        1).db 1 = some DocumentStatus.FAILED := by
  constructor <;> rfl

/-- Claim C1, amended: within a single worker invocation that finds the row,
the committed states are the input database with the row at PROCESSING and
then with the row at PROCESSED (fetch succeeded) or FAILED (fetch raised) —
in particular a QUEUED row goes QUEUED, PROCESSING, terminal.  Because this
holds for any starting status, a further invocation for the same identifier
moves a terminal row back through PROCESSING, so terminal statuses are not
immutable under repeated invocations. -/
theorem C1_amended_transitions (fetch_ok : Bool) (db : List Document)
    (docId : Nat) (h : (db.find? (fun d => d.id == docId)).isSome) :
    (process_document fetch_ok db docId).commits =
      [setStatus db docId DocumentStatus.PROCESSING,
       setStatus db docId
         (if fetch_ok then DocumentStatus.PROCESSED
          else DocumentStatus.FAILED)] ∧
    (process_document fetch_ok db docId).commits.map
        (fun s => statusOf s docId) =
      [some DocumentStatus.PROCESSING,
       some (if fetch_ok then DocumentStatus.PROCESSED
             else DocumentStatus.FAILED)] := by
  rcases hf : db.find? (fun d => d.id == docId) with _ | d
  · rw [hf] at h; simp at h
  · have hPROC := statusOf_setStatus db docId DocumentStatus.PROCESSING h
    have hT := statusOf_setStatus db docId
      (if fetch_ok then DocumentStatus.PROCESSED else DocumentStatus.FAILED) h
    cases fetch_ok <;>
      simp_all [process_document, hf, setStatus_setStatus]

/-- Claim C1 amended, witness at a concrete database. -/
theorem C1_amended_transitions_witness :
    (process_document true [⟨1, "a.txt", "a.txt", 0, .QUEUED⟩] 1).commits =
      [setStatus [⟨1, "a.txt", "a.txt", 0, .QUEUED⟩] 1
         DocumentStatus.PROCESSING,
       setStatus [⟨1, "a.txt", "a.txt", 0, .QUEUED⟩] 1
         (if true then DocumentStatus.PROCESSED
          else DocumentStatus.FAILED)] :=
  (C1_amended_transitions true [⟨1, "a.txt", "a.txt", 0, .QUEUED⟩] 1
    (by decide)).1

/-- Claim C4: for a worker invocation whose row lookup succeeds, the final
committed status of the row is exactly PROCESSED when fetch and processing
raise no exception and exactly FAILED when an exception is raised, and the
database session is closed in either case. -/
theorem C4_worker_outcome (fetch_ok : Bool) (db : List Document)
    (docId : Nat) (h : (db.find? (fun d => d.id == docId)).isSome) :
    statusOf (process_document fetch_ok db docId).db docId =
      some (if fetch_ok then DocumentStatus.PROCESSED
            else DocumentStatus.FAILED) ∧
    (process_document fetch_ok db docId).sessionClosed = true := by
  rcases hf : db.find? (fun d => d.id == docId) with _ | d
  · rw [hf] at h; simp at h
  · have hT := statusOf_setStatus db docId
      (if fetch_ok then DocumentStatus.PROCESSED else DocumentStatus.FAILED) h
    cases fetch_ok <;>
      simp_all [process_document, hf, setStatus_setStatus]

/-- Claim C4, witness: both the successful-fetch and the failing-fetch
branches at a concrete database. -/
theorem C4_worker_outcome_witness :
    (statusOf (process_document true
        [⟨7, "b.pdf", "b.pdf", 3, .QUEUED⟩] 7).db 7 =
      some (if true then DocumentStatus.PROCESSED
            else DocumentStatus.FAILED)) ∧
    (statusOf (process_document false
        [⟨7, "b.pdf", "b.pdf", 3, .QUEUED⟩] 7).db 7 =
      some (if false then DocumentStatus.PROCESSED
            else DocumentStatus.FAILED)) :=
  ⟨(C4_worker_outcome true [⟨7, "b.pdf", "b.pdf", 3, .QUEUED⟩] 7
      (by decide)).1,
   (C4_worker_outcome false [⟨7, "b.pdf", "b.pdf", 3, .QUEUED⟩] 7
      (by decide)).1⟩

/-- Claim C8: when the row lookup finds nothing, the worker terminates
without raising, the database is unchanged (no status set, no row created),
the only commit persists the unchanged state, and the session is closed. -/
theorem C8_missing_row (fetch_ok : Bool) (db : List Document) (docId : Nat)
    (h : db.find? (fun d => d.id == docId) = none) :
    (process_document fetch_ok db docId).db = db ∧
    (process_document fetch_ok db docId).commits = [db] ∧
    (process_document fetch_ok db docId).sessionClosed = true := by
  simp [process_document, h]

/-- Claim C8, witness: worker invoked for identifier 42 against a database
that has only row 1. -/
theorem C8_missing_row_witness :
    (process_document true [⟨1, "a.txt", "a.txt", 0, .QUEUED⟩] 42).db =
      [⟨1, "a.txt", "a.txt", 0, .QUEUED⟩] :=
  (C8_missing_row true [⟨1, "a.txt", "a.txt", 0, .QUEUED⟩] 42
    (by decide)).1

/-! ## Claim about the status handler -/

/-- Claim C9: the status handler returns 200 with the exact stored record
when a row with the identifier exists, 404 with detail
"Document not found" when none exists, and never mutates the database. -/
theorem C9_status_handler (db : List Document) (document_id : Nat) :
    (∀ d, db.find? (fun x => x.id == document_id) = some d →
        (get_document_status db document_id).1 = .ok 200 d) ∧
    (db.find? (fun x => x.id == document_id) = none →
        (get_document_status db document_id).1 =
          .notFound 404 "Document not found") ∧
    (get_document_status db document_id).2 = db := by
  refine ⟨fun d hd => ?_, fun hn => ?_, ?_⟩
  · simp [get_document_status, hd]
  · simp [get_document_status, hn]
  · rcases hf : db.find? (fun x => x.id == document_id) with _ | d <;>
      simp [get_document_status, hf]

/-- Claim C9, witness: lookup of an existing row returns it verbatim, and
GET /status/99999 against a store without that row yields the 404 body. -/
theorem C9_status_handler_witness :
    (get_document_status [⟨1, "a.txt", "a.txt", 0, .QUEUED⟩] 1).1 =
      StatusResponse.ok 200 ⟨1, "a.txt", "a.txt", 0, .QUEUED⟩ ∧
    (get_document_status [⟨1, "a.txt", "a.txt", 0, .QUEUED⟩] 99999).1 =
      StatusResponse.notFound 404 "Document not found" :=
  ⟨(C9_status_handler [⟨1, "a.txt", "a.txt", 0, .QUEUED⟩] 1).1
      ⟨1, "a.txt", "a.txt", 0, .QUEUED⟩ (by decide),
   ((C9_status_handler [⟨1, "a.txt", "a.txt", 0, .QUEUED⟩] 99999).2).1
      (by decide)⟩

/-! ## Claim about startup -/

/-- Claim C3, code evaluation at the failing scenario: with the object store
unreachable (`head_bucket` raises a connection error on every one of the 5
attempts), startup retries with the fixed delay each time but then proceeds
to serve requests with an unverified connection instead of aborting:
`minio_client` was assigned by the `boto3.client` constructor before
verification, so the `is None` abort check never fires. -/
theorem C3_unreachable_store_eval :
    lifespan (List.replicate retries AttemptOutcome.headConnErr) =
      StartupResult.started false retries := by rfl

/-- Supporting fact: the abort path does exist, but only when the client
constructor itself raised on every attempt, leaving `minio_client` at
`None`. -/
theorem lifespan_construct_failure_aborts :
    lifespan (List.replicate retries AttemptOutcome.constructRaises) =
      StartupResult.aborted retries := by rfl

/-! ## Claims about the upload handler -/

/-- Claim C2, code evaluation at the failing input: an upload request with
no Content-Length header.  The handler raises `NameError` at its first
statement (HTTP 500 via the unhandled-exception path) instead of returning
HTTP 411; the no-object-store-write half of the claim does hold. -/
theorem C2_missing_content_length_eval :
    (upload_document none "a.txt" [1, 2, 3] true "" true "" 0 [] []).response =
      UploadResponse.unhandled "NameError: name request is not defined" ∧
    (upload_document none "a.txt" [1, 2, 3] true "" true "" 0 [] []).events
      = [] ∧
    (upload_document none "a.txt" [1, 2, 3] true "" true "" 0 [] []).store
      = [] :=
  ⟨rfl, rfl, rfl⟩

/-- Supporting fact: with the header read wired to the incoming request as
the spec design note prescribes, a missing Content-Length yields exactly
HTTP 411 and touches nothing. -/
theorem upload_wired_411_no_write :
    upload_document_wired none "a.txt" [1, 2, 3] true "" true "" 0 [] [] =
      { response := .httpError 411 "Content-Length header required.",
        store := [], db := [], events := [] } := by rfl

/-- Claim C7, code evaluation at the failing input: an upload request
declaring Content-Length 300000000.  The handler raises `NameError` before
the size check ever runs (HTTP 500), instead of returning HTTP 413 with the
25.0 MB message; the no-row-created half of the claim does hold. -/
theorem C7_oversize_eval :
    (upload_document (some "300000000") "big.bin" [] true "" true "" 0 []
        []).response =
      UploadResponse.unhandled "NameError: name request is not defined" ∧
    (upload_document (some "300000000") "big.bin" [] true "" true "" 0 []
        []).db = [] :=
  ⟨rfl, rfl⟩

/-- Supporting fact: with the header read wired as the spec design note
prescribes, Content-Length 300000000 yields exactly HTTP 413 and a body
mentioning 25.0 MB, with no row created. -/
theorem upload_wired_413_message :
    (upload_document_wired (some "300000000") "big.bin" [] true "" true "" 0
        [] []).response =
      UploadResponse.httpError 413 "File is too large. Limit is 25.0 MB." ∧
    (upload_document_wired (some "300000000") "big.bin" [] true "" true "" 0
        [] []).db = [] := by
  constructor <;> rfl

/-- Claim C5: in every upload that returns 200, the side effects happen in
the strict order store write, row insert and commit, job enqueue with the
new identifier; and across all runs of the handler a row is added to the
metadata store if and only if an object-store write succeeded.  Proved over
`upload_document_wired` (see its doc comment). -/
theorem C5_upload_ordering (content_length : Option String)
    (filename : String) (body : List Nat) (store_ok : Bool)
    (store_err : String) (enqueue_ok : Bool) (enqueue_err : String)
    (now : Nat) (store : List (String × List Nat)) (db : List Document) :
    (∀ c d, (upload_document_wired content_length filename body store_ok
          store_err enqueue_ok enqueue_err now store db).response =
        UploadResponse.ok c d →
      (upload_document_wired content_length filename body store_ok store_err
          enqueue_ok enqueue_err now store db).events =
        [Event.storePut filename, Event.dbInsert d.id, Event.enqueue d.id]) ∧
    ((upload_document_wired content_length filename body store_ok store_err
          enqueue_ok enqueue_err now store db).db ≠ db ↔
      ∃ k, Event.storePut k ∈
        (upload_document_wired content_length filename body store_ok
            store_err enqueue_ok enqueue_err now store db).events) := by
  have hgrow : ∀ doc : Document, db ++ [doc] ≠ db := by
    intro doc hEq
    have hlen := congrArg List.length hEq
    simp at hlen
  rcases content_length with _ | s
  · have heq : upload_document_wired none filename body store_ok store_err
        enqueue_ok enqueue_err now store db =
        { response := .httpError 411 "Content-Length header required.",
          store := store, db := db, events := [] } := by
      simp [upload_document_wired]
    rw [heq]
    exact ⟨fun c d h => UploadResponse.noConfusion h, by simp⟩
  · by_cases hs : s = ""
    · subst hs
      have heq : upload_document_wired (some "") filename body store_ok
          store_err enqueue_ok enqueue_err now store db =
          { response := .httpError 411 "Content-Length header required.",
            store := store, db := db, events := [] } := by
        simp [upload_document_wired]
      rw [heq]
      exact ⟨fun c d h => UploadResponse.noConfusion h, by simp⟩
    · rcases hn : pyInt? s with _ | n
      · have heq : upload_document_wired (some s) filename body store_ok
            store_err enqueue_ok enqueue_err now store db =
            { response := .unhandled "ValueError: invalid literal for int",
              store := store, db := db, events := [] } := by
          simp [upload_document_wired, hs, hn]
        rw [heq]
        exact ⟨fun c d h => UploadResponse.noConfusion h, by simp⟩
      · by_cases hsz : MAX_FILE_SIZE < n
        · have heq : upload_document_wired (some s) filename body store_ok
              store_err enqueue_ok enqueue_err now store db =
              { response := .httpError 413
                  ("File is too large. Limit is " ++ limitMB ++ " MB."),
                store := store, db := db, events := [] } := by
            simp [upload_document_wired, hs, hn, hsz]
          rw [heq]
          exact ⟨fun c d h => UploadResponse.noConfusion h, by simp⟩
        · cases store_ok with
          | false =>
            have heq : upload_document_wired (some s) filename body false
                store_err enqueue_ok enqueue_err now store db =
                { response := .httpError 500
                    ("An unexpected error occurred during upload: " ++
                      store_err),
                  store := store, db := db, events := [] } := by
              simp [upload_document_wired, hs, hn, hsz]
            rw [heq]
            exact ⟨fun c d h => UploadResponse.noConfusion h, by simp⟩
          | true =>
            cases enqueue_ok with
            | false =>
              have heq : upload_document_wired (some s) filename body true
                  store_err false enqueue_err now store db =
                  { response := .unhandled enqueue_err,
                    store := putObject store filename body,
                    db := db ++ [⟨nextId db, filename, filename, now,
                      DocumentStatus.QUEUED⟩],
                    events := [Event.storePut filename,
                      Event.dbInsert (nextId db)] } := by
                simp [upload_document_wired, hs, hn, hsz]
              rw [heq]
              exact ⟨fun c d h => UploadResponse.noConfusion h,
                ⟨fun _ => ⟨filename, by simp⟩, fun _ => hgrow _⟩⟩
            | true =>
              have heq : upload_document_wired (some s) filename body true
                  store_err true enqueue_err now store db =
                  { response := .ok 200 ⟨nextId db, filename, filename, now,
                      DocumentStatus.QUEUED⟩,
                    store := putObject store filename body,
                    db := db ++ [⟨nextId db, filename, filename, now,
                      DocumentStatus.QUEUED⟩],
                    events := [Event.storePut filename,
                      Event.dbInsert (nextId db),
                      Event.enqueue (nextId db)] } := by
                simp [upload_document_wired, hs, hn, hsz]
              rw [heq]
              refine ⟨?_, ⟨fun _ => ⟨filename, by simp⟩, fun _ => hgrow _⟩⟩
              intro c d h
              injection h with h1 h2
              subst h2
              rfl

/-- Claim C5, witness: a concrete 3-byte upload with everything healthy
produces the three side effects in order. -/
theorem C5_upload_ordering_witness :
    (upload_document_wired (some "3") "a.txt" [1, 2, 3] true "" true "" 7 []
        []).events =
      [Event.storePut "a.txt", Event.dbInsert 1, Event.enqueue 1] :=
  (C5_upload_ordering (some "3") "a.txt" [1, 2, 3] true "" true "" 7 []
      []).1 200 ⟨1, "a.txt", "a.txt", 7, .QUEUED⟩ (by decide)

/-- Claim C6: when the object-store write fails on a request that passed
validation, the handler responds HTTP 500 carrying the error message, and
the failure is atomic: the metadata store, the object store and the event
trace (hence the job queue) are untouched.  Proved over
`upload_document_wired` (see its doc comment). -/
theorem C6_store_failure_atomic (s : String) (filename : String)
    (body : List Nat) (store_err : String) (enqueue_ok : Bool)
    (enqueue_err : String) (now : Nat) (store : List (String × List Nat))
    (db : List Document) (hne : s ≠ "") (n : Nat) (hn : pyInt? s = some n)
    (hsz : n ≤ MAX_FILE_SIZE) :
    (upload_document_wired (some s) filename body false store_err enqueue_ok
        enqueue_err now store db).response =
      UploadResponse.httpError 500
        ("An unexpected error occurred during upload: " ++ store_err) ∧
    (upload_document_wired (some s) filename body false store_err enqueue_ok
        enqueue_err now store db).db = db ∧
    (upload_document_wired (some s) filename body false store_err enqueue_ok
        enqueue_err now store db).store = store ∧
    (upload_document_wired (some s) filename body false store_err enqueue_ok
        enqueue_err now store db).events = [] := by
  have hsz2 : ¬ n > MAX_FILE_SIZE := by omega
  simp [upload_document_wired, hne, hn, hsz2]

/-- Claim C6, witness: a concrete valid-size upload against a failing store
yields the 500 with the error message. -/
theorem C6_store_failure_atomic_witness :
    (upload_document_wired (some "3") "a.txt" [1] false "connection refused"
        true "" 0 [] []).response =
      UploadResponse.httpError 500
        ("An unexpected error occurred during upload: " ++
          "connection refused") :=
  (C6_store_failure_atomic "3" "a.txt" [1] "connection refused" true "" 0 []
    [] (by decide) 3 (by decide) (by decide)).1

/-- Claim C10: when the enqueue call raises after the metadata insert has
committed, the handler propagates the error to the client (no 200), yet the
committed row with status QUEUED remains in the metadata store and no job
was enqueued — the orphan-row non-atomicity the claim describes.  Proved
over `upload_document_wired` (see its doc comment). -/
theorem C10_enqueue_failure_orphan (s : String) (filename : String)
    (body : List Nat) (store_err : String) (enqueue_err : String)
    (now : Nat) (store : List (String × List Nat)) (db : List Document)
    (hne : s ≠ "") (n : Nat) (hn : pyInt? s = some n)
    (hsz : n ≤ MAX_FILE_SIZE) :
    (upload_document_wired (some s) filename body true store_err false
        enqueue_err now store db).response =
      UploadResponse.unhandled enqueue_err ∧
    (upload_document_wired (some s) filename body true store_err false
        enqueue_err now store db).db =
      db ++ [⟨nextId db, filename, filename, now, DocumentStatus.QUEUED⟩] ∧
    (∀ i, Event.enqueue i ∉
      (upload_document_wired (some s) filename body true store_err false
          enqueue_err now store db).events) := by
  have hsz2 : ¬ n > MAX_FILE_SIZE := by omega
  simp [upload_document_wired, hne, hn, hsz2]

/-- Claim C10, witness: concrete upload with a healthy store and a broken
queue leaves the QUEUED row behind. -/
theorem C10_enqueue_failure_orphan_witness :
    (upload_document_wired (some "3") "a.txt" [1] true "" false
        "redis connection refused" 9 [] []).db =
      [] ++ [⟨nextId [], "a.txt", "a.txt", 9, DocumentStatus.QUEUED⟩] :=
  (C10_enqueue_failure_orphan "3" "a.txt" [1] "" "redis connection refused"
    9 [] [] (by decide) 3 (by decide) (by decide)).2.1

end DocPipeline
